import Mathlib

/-!
Verification of the draw-list translation layer of `imgui-rs-backends`.

The development shallowly embeds the Rust sources:

* `src/helper.rs` — the `DrawParamsIterator` (draw-command iterator with
  clip-rect culling and scissor construction);
* `src/renderer/fna3d.rs` — the FNA3D renderer (`ImGuiFna3d::render`,
  `ImGuiFna3d::draw`, the growable `GpuVertexBuffer`/`GpuIndexBuffer`);
* `src/renderer/glow.rs` and `src/renderer/glow/res.rs` — the glow renderer's
  texture lookup and fixed-capacity append buffers;
* `src/renderer/rokol.rs` — the rokol renderer's texture lookup.

`f32` coordinates are modelled as exact rationals (`ℚ`); the claims under
study only subtract, multiply and compare coordinates.  `usize` values are
modelled as `ℕ` with `usize::MAX = 2^64 - 1`.  GPU side effects are modelled
as explicit operation traces (`GpuOp` lists).
-/

namespace ImguiBackends

/-- `helper.rs`: `Rect { left, top, right, bottom }` (y axis up). -/
structure Rect where
  left : ℚ
  top : ℚ
  right : ℚ
  bottom : ℚ
deriving DecidableEq

/-- `Rect::width`: `(self.right - self.left).abs()`. -/
def Rect.width (r : Rect) : ℚ := |r.right - r.left|

/-- `Rect::height`: `(self.top - self.bottom).abs()`. -/
def Rect.height (r : Rect) : ℚ := |r.top - r.bottom|

/-- An `imgui` clip rectangle `[f32; 4]`; fields `x y z w` are the array
entries `[0] [1] [2] [3]`, documented in the source as `[left, up, right,
down]`. -/
structure ClipRect where
  x : ℚ
  y : ℚ
  z : ℚ
  w : ℚ
deriving DecidableEq

/-- `imgui::DrawVert { pos, uv, col }` (20 bytes). -/
structure DrawVert where
  pos : ℚ × ℚ
  uv : ℚ × ℚ
  col : ℕ
deriving DecidableEq

/-- `imgui::DrawCmdParams`: per-command parameters. -/
structure DrawCmdParams where
  clip_rect : ClipRect
  texture_id : ℕ
  vtx_offset : ℕ
  idx_offset : ℕ
deriving DecidableEq

/-- `imgui::DrawCmd`: the tagged command variant.  The raw callback's
function pointer and user payload are opaque; we keep the payload as an
identifier so that an invocation can be observed. -/
inductive DrawCmd where
  | Elements (count : ℕ) (cmd_params : DrawCmdParams)
  | ResetRenderState
  | RawCallback (raw_cmd : ℕ)
deriving DecidableEq

/-- `imgui::DrawList`: vertex buffer, (16-bit) index buffer, command list. -/
structure DrawList where
  vtx_buffer : List DrawVert
  idx_buffer : List ℕ
  commands : List DrawCmd
deriving DecidableEq

/-- `imgui::DrawData`: one frame's snapshot. -/
structure DrawData where
  display_pos : ℚ × ℚ
  display_size : ℚ × ℚ
  framebuffer_scale : ℚ × ℚ
  draw_lists : List DrawList
deriving DecidableEq

/-- `helper.rs`: `DrawParams`, the normalized per-draw-call descriptor. -/
structure DrawParams where
  display : Rect
  vtx_buffer : List DrawVert
  vtx_offset : ℕ
  idx_buffer : List ℕ
  idx_offset : ℕ
  n_elems : ℕ
  tex_id : ℕ
  scissor : Rect
deriving DecidableEq

/-- Observable side effects of `DrawParamsIterator::next`: the two
`log::warn!` diagnostics and the raw-callback invocation (which receives the
draw list's raw handle and the command's payload). -/
inductive Effect where
  | warnResetRenderState
  | warnRawCallback
  | invokeRawCallback (list : DrawList) (raw_cmd : ℕ)
deriving DecidableEq

/-- `helper.rs`: the state of `DrawParamsIterator`.  `rest_lists` is the
not-yet-consumed tail of the `draw_lists` iterator; `draw_list` and
`draw_commands` mirror the `Option` fields of the Rust struct
(`draw_commands` holds the commands not yet yielded by the current
`DrawCmdIterator`). -/
structure IterState where
  fb_width : ℚ
  fb_height : ℚ
  clip_off : ℚ × ℚ
  clip_scale : ℚ × ℚ
  display_rect : Rect
  rest_lists : List DrawList
  draw_list : Option DrawList
  draw_commands : Option (List DrawCmd)
deriving DecidableEq

/-- `DrawParamsIterator::new`: `fb_width = display_size[0] * framebuffer_scale[0]`. -/
def fbWidth (data : DrawData) : ℚ := data.display_size.1 * data.framebuffer_scale.1

/-- `DrawParamsIterator::new`: `fb_height = display_size[1] * framebuffer_scale[1]`. -/
def fbHeight (data : DrawData) : ℚ := data.display_size.2 * data.framebuffer_scale.2

/-- `DrawParamsIterator::new`: the `display_rect` value. -/
def displayRectOf (data : DrawData) : Rect :=
  { left := data.display_pos.1
    right := data.display_pos.1 + data.display_size.1
    top := data.display_pos.2 + data.display_size.2
    bottom := data.display_pos.2 }

namespace DrawParamsIterator

/-- `DrawParamsIterator::new` (`helper.rs`).  On a degenerate framebuffer
(`fb_width <= 0.0 || fb_height <= 0.0`) no draw list is entered; otherwise the
first list (if any) is pulled from the `draw_lists` iterator and its command
iterator is opened. -/
def new (data : DrawData) : IterState :=
  if fbWidth data ≤ 0 ∨ fbHeight data ≤ 0 then
    { fb_width := fbWidth data
      fb_height := fbHeight data
      clip_off := data.display_pos
      clip_scale := data.framebuffer_scale
      display_rect := displayRectOf data
      rest_lists := data.draw_lists
      draw_list := none
      draw_commands := none }
  else
    match data.draw_lists with
    | [] =>
      { fb_width := fbWidth data
        fb_height := fbHeight data
        clip_off := data.display_pos
        clip_scale := data.framebuffer_scale
        display_rect := displayRectOf data
        rest_lists := []
        draw_list := none
        draw_commands := none }
    | l :: ls =>
      { fb_width := fbWidth data
        fb_height := fbHeight data
        clip_off := data.display_pos
        clip_scale := data.framebuffer_scale
        display_rect := displayRectOf data
        rest_lists := ls
        draw_list := some l
        draw_commands := some l.commands }

end DrawParamsIterator

/-- The "go to next list" inner loop of `DrawParamsIterator::next`: advance
`draw_lists` until a list yields a command (`draw_commands.as_mut()?.next()`),
returning that command, the remaining commands of its list, the list itself,
and the remaining lists. -/
def pullFromLists : List DrawList → Option (DrawCmd × List DrawCmd × DrawList × List DrawList)
  | [] => none
  | l :: ls =>
    match l.commands with
    | cmd :: rest => some (cmd, rest, l, ls)
    | [] => pullFromLists ls

/-- The command-fetching loop of `DrawParamsIterator::next` as a state
transition: fetch the next `DrawCmd` (advancing to the next draw list when the
current command iterator is exhausted), or `none` when the whole iteration is
over (also when `draw_commands` is `None`, i.e. a degenerate framebuffer). -/
def nextCmd (s : IterState) : Option (DrawCmd × IterState) :=
  match s.draw_commands with
  | none => none
  | some (cmd :: rest) => some (cmd, { s with draw_commands := some rest })
  | some [] =>
    match pullFromLists s.rest_lists with
    | none => none
    | some (cmd, rest, l, ls) =>
      some (cmd, { s with rest_lists := ls, draw_list := some l, draw_commands := some rest })

/-- `helper.rs` cull test in `next` (the `continue 'next` condition): the clip
rect transformed by `(raw - offset) * scale` is fully outside the framebuffer. -/
def culledP (clip_off clip_scale : ℚ × ℚ) (fb_width fb_height : ℚ)
    (cp : DrawCmdParams) : Prop :=
  (cp.clip_rect.x - clip_off.1) * clip_scale.1 ≥ fb_width ∨
  (cp.clip_rect.y - clip_off.2) * clip_scale.2 ≥ fb_height ∨
  (cp.clip_rect.z - clip_off.1) * clip_scale.1 < 0 ∨
  (cp.clip_rect.w - clip_off.2) * clip_scale.2 < 0

instance (clip_off clip_scale : ℚ × ℚ) (fb_width fb_height : ℚ) (cp : DrawCmdParams) :
    Decidable (culledP clip_off clip_scale fb_width fb_height cp) := by
  unfold culledP; infer_instance

/-- The `DrawParams` value built by the `Elements` arm of
`DrawParamsIterator::next` for a non-culled command of draw list `l`
(`[x, y, z, w]` is the raw clip rect): in particular
`scissor = Rect { left: x*sx, top: fb_height - w*sy, right: (z-x)*sx, bottom: (w-y)*sy }`. -/
def mkElemParams (display_rect : Rect) (clip_scale : ℚ × ℚ) (fb_height : ℚ)
    (l : DrawList) (count : ℕ) (cp : DrawCmdParams) : DrawParams :=
  { display := display_rect
    vtx_buffer := l.vtx_buffer
    vtx_offset := cp.vtx_offset
    idx_buffer := l.idx_buffer
    idx_offset := cp.idx_offset
    n_elems := count
    tex_id := cp.texture_id
    scissor :=
      { left := cp.clip_rect.x * clip_scale.1
        top := fb_height - cp.clip_rect.w * clip_scale.2
        right := (cp.clip_rect.z - cp.clip_rect.x) * clip_scale.1
        bottom := (cp.clip_rect.w - cp.clip_rect.y) * clip_scale.2 } }

/-- The measure used to bound the number of commands the iterator can pull:
each remaining command counts one, each not-yet-entered list counts one more. -/
def listsMeas (ls : List DrawList) : ℕ :=
  (ls.map fun l => l.commands.length + 1).sum

/-- Measure of an iterator state (fuel bound for `runFromF`). -/
def meas (s : IterState) : ℕ :=
  (match s.draw_commands with
   | none => 0
   | some cs => cs.length + 1) + listsMeas s.rest_lists

/-- `DrawParamsIterator::next` inlined into the consuming `for` loop (the
consumers in `fna3d.rs` / `rokol.rs` run `for params in DrawParamsIterator::new(d)`,
which stops at the first `None`): collects the emitted `DrawParams` in order
together with the side effects of the call that stopped the loop.  Faithful to
the source, the `ResetRenderState` and `RawCallback` arms make `next` return
`None` (after logging, resp. logging and invoking the callback), so they end
the `for` loop.  The `fuel` argument only discharges termination; the wrapper
`DrawParamsIterator.run` supplies more fuel than `meas` of the state, which is
an upper bound on the number of commands that can be pulled. -/
def runFromF : ℕ → IterState → List DrawParams × List Effect
  | 0, _ => ([], [])
  | fuel + 1, s =>
    match nextCmd s with
    | none => ([], [])
    | some (cmd, s') =>
      match cmd with
      | .Elements count cmd_params =>
        if culledP s.clip_off s.clip_scale s.fb_width s.fb_height cmd_params then
          runFromF fuel s'
        else
          match s'.draw_list with
          | none => ([], [])
          | some l =>
            let r := runFromF fuel s'
            (mkElemParams s.display_rect s.clip_scale s.fb_height l count cmd_params :: r.1,
             r.2)
      | .ResetRenderState => ([], [.warnResetRenderState])
      | .RawCallback raw_cmd =>
        match s'.draw_list with
        | none => ([], [.warnRawCallback])
        | some l => ([], [.warnRawCallback, .invokeRawCallback l raw_cmd])

/-- Run the draw-command iterator of a frame to completion, as its consumers
do: the emitted `DrawParams` sequence and the observed side effects. -/
def DrawParamsIterator.run (data : DrawData) : List DrawParams × List Effect :=
  runFromF (meas (DrawParamsIterator.new data) + 1) (DrawParamsIterator.new data)

/-- The sequence of Normalized Draw Params a consumer of the iterator sees. -/
def emittedParams (data : DrawData) : List DrawParams :=
  (DrawParamsIterator.run data).1

/-- All commands of a frame, each paired with its owning draw list, in
iteration order. -/
def flattenPairs : List DrawList → List (DrawList × DrawCmd)
  | [] => []
  | l :: ls => (l.commands.map fun c => (l, c)) ++ flattenPairs ls

/-- The commands an iterator state can still pull, paired with their owning
lists.  When `draw_commands` is `None` the iterator is finished (the
degenerate-framebuffer state), so the stream is empty. -/
def streamOf (s : IterState) : List (DrawList × DrawCmd) :=
  match s.draw_list, s.draw_commands with
  | some l, some cs => (cs.map fun c => (l, c)) ++ flattenPairs s.rest_lists
  | _, _ => []

/-- Reference model of the consumed iterator: process the flat
(list, command) stream in order — emit non-culled `Elements`, drop culled
ones, stop at the first `ResetRenderState` / `RawCallback` with its effects.
`runFromF_eq` proves it equal to the state-machine embedding. -/
def processStreamP (clip_off clip_scale : ℚ × ℚ) (fb_width fb_height : ℚ)
    (display_rect : Rect) : List (DrawList × DrawCmd) → List DrawParams × List Effect
  | [] => ([], [])
  | (l, c) :: rest =>
    match c with
    | .Elements count cp =>
      if culledP clip_off clip_scale fb_width fb_height cp then
        processStreamP clip_off clip_scale fb_width fb_height display_rect rest
      else
        let r := processStreamP clip_off clip_scale fb_width fb_height display_rect rest
        (mkElemParams display_rect clip_scale fb_height l count cp :: r.1, r.2)
    | .ResetRenderState => ([], [.warnResetRenderState])
    | .RawCallback raw_cmd => ([], [.warnRawCallback, .invokeRawCallback l raw_cmd])

/-- `DrawCmd.Elements` recognizer. -/
def DrawCmd.isElements : DrawCmd → Bool
  | .Elements _ _ => true
  | _ => false

/-- Stated from the spec's words for comparison with the code (refinement
check for the scissor rectangle): "`transform_clip_rect(raw_clip,
display_offset, framebuffer_scale)` applies `(raw - offset) * scale` per axis
to all four clip-rect components". -/
def spec_transform_clip_rect (raw : ClipRect) (off scale : ℚ × ℚ) : Rect :=
  { left := (raw.x - off.1) * scale.1
    top := (raw.y - off.2) * scale.2
    right := (raw.z - off.1) * scale.1
    bottom := (raw.w - off.2) * scale.2 }

/-- `usize::MAX` on the 64-bit targets the crate builds for: the reserved
font-atlas sentinel texture id. -/
def USIZE_MAX : ℕ := 2 ^ 64 - 1

/-- `imgui::Textures::get`: look up a registered texture id. -/
def texturesGet {α : Type} (ts : List (ℕ × α)) (id : ℕ) : Option α :=
  (ts.find? fun kv => kv.1 == id).map (·.2)

namespace Fna3d

/-- `fna3d.rs`: `ImGuiRendererError` (`#[error("bad texture id")] BadTexture`). -/
inductive ImGuiRendererError where
  | BadTexture (id : ℕ)
deriving DecidableEq

/-- `fna3d.rs`: `pub const N_QUADS: usize = 8192`. -/
def N_QUADS : ℕ := 8192

/-- `fna3d.rs`: `const VERT_SIZE: usize = 20`. -/
def VERT_SIZE : ℕ := 20

/-- `fna3d.rs`: `const INDEX_SIZE: usize = 2`. -/
def INDEX_SIZE : ℕ := 2

/-- `size_of::<imgui::DrawVert>()`: 2 × `[f32; 2]` + `[u8; 4]` = 20 bytes. -/
def sizeOfDrawVert : ℕ := 20

/-- `size_of::<imgui::DrawIdx>()`: `u16` = 2 bytes. -/
def sizeOfDrawIdx : ℕ := 2

/-- Backend texture handle (opaque `*mut fna3d::Texture`). -/
abbrev Tex := ℕ

/-- The FNA3D device calls `ImGuiFna3d::render`/`draw` and the buffer helpers
issue, recorded as a trace.  Buffer-data writes always happen at offset 0 and
carry the written byte length. -/
inductive GpuOp where
  | setBlendState
  | disposeVertexBuffer (capacity : ℕ)
  | allocVertexBuffer (capacity : ℕ)
  | setVertexBufferData (byteLen : ℕ)
  | disposeIndexBuffer (capacity : ℕ)
  | allocIndexBuffer (capacity : ℕ)
  | setIndexBufferData (byteLen : ℕ)
  | setProjection (left right top bottom : ℚ)
  | setScissor (x y w h : ℚ)
  | verifySampler (tex : Tex)
  | applyVertexBufferBindings (vtx_offset : ℕ)
  | drawIndexed (baseVertex idxOffset numVerts primCount : ℕ)
deriving DecidableEq

/-- `fna3d.rs`: `GpuVertexBuffer { buf, capacity_in_bytes }` (the raw handle
is left out; allocations appear in the trace). -/
structure GpuVertexBuffer where
  capacity_in_bytes : ℕ
deriving DecidableEq

/-- `GpuVertexBuffer::new`: allocate `VERT_SIZE * n_vertices` bytes. -/
def GpuVertexBuffer.new (n_vertices : ℕ) : GpuVertexBuffer × List GpuOp :=
  let len := VERT_SIZE * n_vertices
  ({ capacity_in_bytes := len }, [.allocVertexBuffer len])

/-- `GpuVertexBuffer::upload_vertices::<T>` with `T = imgui::DrawVert` (the
only call site, `Batch::set_buffers`): computes
`len = VERT_SIZE * (data.len() + size_of::<T>())`, reallocates when `len`
exceeds the capacity, then writes the whole slice at offset 0.
`dataLen` is `data.len()` (the element count). -/
def GpuVertexBuffer.upload_vertices (b : GpuVertexBuffer) (dataLen : ℕ) :
    GpuVertexBuffer × List GpuOp :=
  let len := VERT_SIZE * (dataLen + sizeOfDrawVert)
  if b.capacity_in_bytes < len then
    ({ capacity_in_bytes := len },
     [.disposeVertexBuffer b.capacity_in_bytes, .allocVertexBuffer len,
      .setVertexBufferData (VERT_SIZE * dataLen)])
  else
    (b, [.setVertexBufferData (VERT_SIZE * dataLen)])

/-- `fna3d.rs`: `GpuIndexBuffer { buf, capacity_in_bytes }`. -/
structure GpuIndexBuffer where
  capacity_in_bytes : ℕ
deriving DecidableEq

/-- `GpuIndexBuffer::new`: allocate `INDEX_SIZE * n_indices` bytes. -/
def GpuIndexBuffer.new (n_indices : ℕ) : GpuIndexBuffer × List GpuOp :=
  let len := INDEX_SIZE * n_indices
  ({ capacity_in_bytes := len }, [.allocIndexBuffer len])

/-- `GpuIndexBuffer::upload_indices::<T>` with `T = imgui::DrawIdx`:
`len = INDEX_SIZE * (data.len() + size_of::<T>())`, reallocate when above
capacity, write the whole slice at offset 0. -/
def GpuIndexBuffer.upload_indices (b : GpuIndexBuffer) (dataLen : ℕ) :
    GpuIndexBuffer × List GpuOp :=
  let len := INDEX_SIZE * (dataLen + sizeOfDrawIdx)
  if b.capacity_in_bytes < len then
    ({ capacity_in_bytes := len },
     [.disposeIndexBuffer b.capacity_in_bytes, .allocIndexBuffer len,
      .setIndexBufferData (INDEX_SIZE * dataLen)])
  else
    (b, [.setIndexBufferData (INDEX_SIZE * dataLen)])

/-- `fna3d.rs`: `Batch` (the shader handles are opaque and left out). -/
structure Batch where
  vbuf : GpuVertexBuffer
  ibuf : GpuIndexBuffer
deriving DecidableEq

/-- `Batch::new`: vertex buffer for `4 * N_QUADS` vertices, index buffer for
`6 * N_QUADS` indices. -/
def Batch.new : Batch :=
  { vbuf := (GpuVertexBuffer.new (4 * N_QUADS)).1
    ibuf := (GpuIndexBuffer.new (6 * N_QUADS)).1 }

/-- `Batch::set_buffers`: upload both slices (element counts `vlen`, `ilen`). -/
def Batch.set_buffers (b : Batch) (vlen ilen : ℕ) : Batch × List GpuOp :=
  let rv := b.vbuf.upload_vertices vlen
  let ri := b.ibuf.upload_indices ilen
  ({ vbuf := rv.1, ibuf := ri.1 }, rv.2 ++ ri.2)

/-- `fna3d.rs`: `ImGuiFna3d { textures, font_texture, batch }`, the renderer
state.  The user-texture registry is an association list keyed by texture id. -/
structure ImGuiFna3d where
  textures : List (ℕ × Tex)
  font_texture : Tex
  batch : Batch
deriving DecidableEq

/-- The texture resolution step of `ImGuiFna3d::draw`:
`if tex_id.id() == usize::MAX { &self.font_texture } else
{ self.textures.get(tex_id).ok_or(BadTexture(tex_id))? }`. -/
def lookupDrawTexture (textures : List (ℕ × Tex)) (font_texture : Tex) (tex_id : ℕ) :
    Except ImGuiRendererError Tex :=
  if tex_id = USIZE_MAX then .ok font_texture
  else
    match texturesGet textures tex_id with
    | some t => .ok t
    | none => .error (.BadTexture tex_id)

/-- `ImGuiFna3d::draw`: on `idx_offset == 0` upload both geometry buffers and
set the projection uniform (`orthographic_off_center` with top/bottom
swapped); then set the scissor rect, resolve the texture (`?` propagates
`BadTexture`), bind, and issue the indexed draw of `n_elems * 2 / 3` vertices
and `n_elems / 3` triangles.  Returns the updated state, the trace of device
calls actually made, and the error (if any) that `?` propagated. -/
def ImGuiFna3d.draw (st : ImGuiFna3d) (params : DrawParams) :
    ImGuiFna3d × List GpuOp × Option ImGuiRendererError :=
  let r1 :=
    if params.idx_offset = 0 then
      let rb := st.batch.set_buffers params.vtx_buffer.length params.idx_buffer.length
      ({ st with batch := rb.1 },
       rb.2 ++ [GpuOp.setProjection params.display.left params.display.right
                  params.display.top params.display.bottom])
    else (st, ([] : List GpuOp))
  let ops2 := r1.2 ++ [.setScissor params.scissor.left params.scissor.top
                         params.scissor.width params.scissor.height]
  match lookupDrawTexture r1.1.textures r1.1.font_texture params.tex_id with
  | .error e => (r1.1, ops2, some e)
  | .ok t =>
    let n_vertices := params.n_elems * 2 / 3
    let n_triangles := params.n_elems / 3
    (r1.1,
     ops2 ++ [.verifySampler t, .applyVertexBufferBindings params.vtx_offset,
              .drawIndexed params.vtx_offset params.idx_offset n_vertices n_triangles],
     none)

/-- The `for params in DrawParamsIterator::new(draw_data) { self.draw(...)? }`
loop of `ImGuiFna3d::render`: threads the state, concatenates the traces, and
stops at the first draw error, which becomes the function result. -/
def renderLoop (st : ImGuiFna3d) :
    List DrawParams → ImGuiFna3d × List GpuOp × Option ImGuiRendererError
  | [] => (st, [], none)
  | p :: rest =>
    let r := ImGuiFna3d.draw st p
    match r.2.2 with
    | some e => (r.1, r.2.1, some e)
    | none =>
      let r' := renderLoop r.1 rest
      (r'.1, r.2.1 ++ r'.2.1, r'.2.2)

/-- `ImGuiFna3d::render`: `before_render` (set the blend state) followed by
the draw loop over the iterator's output. -/
def ImGuiFna3d.render (st : ImGuiFna3d) (data : DrawData) :
    ImGuiFna3d × List GpuOp × Option ImGuiRendererError :=
  let r := renderLoop st (emittedParams data)
  (r.1, GpuOp.setBlendState :: r.2.1, r.2.2)

/-- Buffer-upload recognizer (`set_vertex_buffer_data` / `set_index_buffer_data`). -/
def GpuOp.isBufferUpload : GpuOp → Bool
  | .setVertexBufferData _ => true
  | .setIndexBufferData _ => true
  | _ => false

/-- Projection-uniform recognizer. -/
def GpuOp.isSetProjection : GpuOp → Bool
  | .setProjection _ _ _ _ => true
  | _ => false

/-- Vertex-buffer allocation recognizer. -/
def GpuOp.isAllocVertex : GpuOp → Bool
  | .allocVertexBuffer _ => true
  | _ => false

/-- Index-buffer allocation recognizer. -/
def GpuOp.isAllocIndex : GpuOp → Bool
  | .allocIndexBuffer _ => true
  | _ => false

/-- The primitive counts of the indexed draws in a trace. -/
def trianglesDrawn (ops : List GpuOp) : List ℕ :=
  ops.filterMap fun op =>
    match op with
    | .drawIndexed _ _ _ primCount => some primCount
    | _ => none

/-- `Except.isOk` for the renderer error type. -/
def exOk {α : Type} : Except ImGuiRendererError α → Bool
  | .ok _ => true
  | .error _ => false

end Fna3d

namespace Glow

/-- `glow.rs`: `pub const FONT_TEXTUER_ID: usize = usize::MAX` (sic). -/
def FONT_TEXTUER_ID : ℕ := USIZE_MAX

/-- glow texture handle (opaque `glow::Texture`). -/
abbrev Tex := ℕ

/-- `glow.rs`: the texture-resolution-relevant part of `ImGuiGlow`. -/
structure ImGuiGlow where
  textures : List (ℕ × Tex)
  font_texture : Tex
deriving DecidableEq

/-- `ImGuiGlow::lookup_texture`: the sentinel id resolves to the font texture
without consulting `textures`; otherwise `textures.get`. -/
def ImGuiGlow.lookup_texture (st : ImGuiGlow) (tex_id : ℕ) : Option Tex :=
  if tex_id = FONT_TEXTUER_ID then some st.font_texture
  else
    match texturesGet st.textures tex_id with
    | some t => some t
    | none => none

/-- `glow/res.rs`: `pub const N_QUADS: usize = 2048`. -/
def N_QUADS : ℕ := 2048

/-- `size_of::<imgui::DrawVert>()` = 20. -/
def sizeOfDrawVert : ℕ := 20

/-- `size_of::<imgui::DrawIdx>()` = 2. -/
def sizeOfDrawIdx : ℕ := 2

/-- `glow/res.rs`: `Buffer<T>` (buffer type tag and GL id left out;
`sizeOfT = size_of::<T>()` is passed explicitly). -/
structure Buffer where
  len_bytes : ℕ
  capacity_bytes : ℕ
deriving DecidableEq

/-- `Buffer::<T>::new(gl, type_, len)`: `capacity_bytes = size_of::<T>() * len`,
`assert!(capacity_bytes < i32::MAX as usize)` (assertion failure = `none`),
write offset starts at 0. -/
def Buffer.new (sizeOfT len : ℕ) : Option Buffer :=
  let capacity_bytes := sizeOfT * len
  if capacity_bytes < 2 ^ 31 - 1 then
    some { len_bytes := 0, capacity_bytes := capacity_bytes }
  else none

/-- `Buffer::<T>::append(gl, data)` with `dataLen = data.len()`: computes the
incoming byte length, asserts the accumulated length fits the fixed capacity
(assertion failure = `none`), writes the bytes at the current offset via
`buffer_sub_data`, and advances the offset.  Returns the new buffer state,
the write offset used, and the written byte length.  The capacity is never
touched: the buffer does not grow. -/
def Buffer.append (b : Buffer) (sizeOfT dataLen : ℕ) : Option (Buffer × ℕ × ℕ) :=
  let len_bytes := sizeOfT * dataLen
  let new_len_bytes := b.len_bytes + len_bytes
  if new_len_bytes ≤ b.capacity_bytes then
    some ({ b with len_bytes := new_len_bytes }, b.len_bytes, len_bytes)
  else none

/-- `Resources::new`: the two buffers, created as
`Buffer::new(gl, ARRAY_BUFFER, 4 * N_QUADS * size_of::<DrawVert>())` and
`Buffer::new(gl, ELEMENT_ARRAY_BUFFER, 6 * N_QUADS * size_of::<DrawIdx>())`
(note the `len` arguments are byte counts which `Buffer::new` multiplies by
the element size again). -/
def Resources.new : Option (Buffer × Buffer) :=
  match Buffer.new sizeOfDrawVert (4 * N_QUADS * sizeOfDrawVert),
        Buffer.new sizeOfDrawIdx (6 * N_QUADS * sizeOfDrawIdx) with
  | some vbuf, some ibuf => some (vbuf, ibuf)
  | _, _ => none

end Glow

namespace Rokol

/-- `rokol.rs`: `pub const FONT_TEXTUER_ID: usize = usize::MAX`. -/
def FONT_TEXTUER_ID : ℕ := USIZE_MAX

/-- rokol texture handle (opaque `rg::Image`). -/
abbrev Tex := ℕ

/-- `rokol.rs`: the texture-resolution-relevant part of `ImGuiRokolGfx`. -/
structure ImGuiRokolGfx where
  textures : List (ℕ × Tex)
  font_texture : Tex
deriving DecidableEq

/-- `ImGuiRokolGfx::lookup_texture`: same shape as the glow backend. -/
def ImGuiRokolGfx.lookup_texture (st : ImGuiRokolGfx) (tex_id : ℕ) : Option Tex :=
  if tex_id = FONT_TEXTUER_ID then some st.font_texture
  else
    match texturesGet st.textures tex_id with
    | some t => some t
    | none => none

end Rokol

/-! Concrete frames and renderer states used by witnesses and counterexamples. -/

/-- A clip rect covering a full 800×600 framebuffer. -/
def clipFull : ClipRect := ⟨0, 0, 800, 600⟩

/-- Command params with the full-framebuffer clip rect, font-atlas texture,
zero offsets. -/
def cpKept : DrawCmdParams := ⟨clipFull, USIZE_MAX, 0, 0⟩

/-- Command params with clip rect `[900, 0, 950, 50]` (entirely right of an
800-wide framebuffer). -/
def cpOut : DrawCmdParams := ⟨⟨900, 0, 950, 50⟩, USIZE_MAX, 0, 0⟩

/-- C1 counterexample frame: 800×600, a `ResetRenderState` command followed by
an in-bounds `Elements` command. -/
def C1cexList : DrawList := ⟨[], [], [.ResetRenderState, .Elements 3 cpKept]⟩

def C1cexData : DrawData := ⟨(0, 0), (800, 600), (1, 1), [C1cexList]⟩

/-- C1 witness frame: 800×600, one culled and one kept `Elements` command. -/
def C1wList : DrawList := ⟨[], [], [.Elements 30 cpOut, .Elements 60 cpKept]⟩

def C1wData : DrawData := ⟨(0, 0), (800, 600), (1, 1), [C1wList]⟩

/-- C2 witness frame: zero display width (minimized window) but a non-empty
command stream. -/
def C2wData : DrawData :=
  ⟨(0, 0), (0, 600), (1, 1), [⟨[], [], [.Elements 3 cpKept, .ResetRenderState]⟩]⟩

/-- C3 frame: 800×600, offset `(0,0)`, scale `(1,1)`, one `Elements` command
with clip rect `[10, 20, 100, 200]`. -/
def C3cp : DrawCmdParams := ⟨⟨10, 20, 100, 200⟩, USIZE_MAX, 0, 0⟩

def C3list : DrawList := ⟨[], [], [.Elements 6 C3cp]⟩

def C3data : DrawData := ⟨(0, 0), (800, 600), (1, 1), [C3list]⟩

/-- The single `DrawParams` the iterator emits for `C3data`. -/
def C3param : DrawParams :=
  mkElemParams (displayRectOf C3data) (1, 1) 600 C3list 6 C3cp

/-- C4 failing inputs: a frame whose first command is `ResetRenderState`
(resp. `RawCallback`) followed by an in-bounds `Elements` command. -/
def C4dataA : DrawData := C1cexData

def C4listB : DrawList := ⟨[], [], [.RawCallback 42, .Elements 3 cpKept]⟩

def C4dataB : DrawData := ⟨(0, 0), (800, 600), (1, 1), [C4listB]⟩

/-- C6 scenario: one draw list, two `Elements` commands sharing the font
texture, index offsets 0 and 600, 600 indices each. -/
def C6list : DrawList :=
  ⟨List.replicate 8 ⟨(0, 0), (0, 0), 0⟩, List.replicate 1200 0,
   [.Elements 600 ⟨clipFull, USIZE_MAX, 0, 0⟩, .Elements 600 ⟨clipFull, USIZE_MAX, 0, 600⟩]⟩

def C6data : DrawData := ⟨(0, 0), (800, 600), (1, 1), [C6list]⟩

def C6st : Fna3d.ImGuiFna3d := ⟨[], 7, Fna3d.Batch.new⟩

/-- C8 witness state: registry maps id 0 to handle 5; font atlas handle 7. -/
def C8st : Fna3d.ImGuiFna3d := ⟨[(0, 5)], 7, Fna3d.Batch.new⟩

/-- A draw call with a registered texture id (0) and non-zero index offset. -/
def C8good : DrawParams :=
  ⟨displayRectOf C6data, [], 0, [], 3, 30, 0, ⟨0, 0, 800, 600⟩⟩

/-- A draw call with unregistered texture id 3. -/
def C8bad : DrawParams :=
  ⟨displayRectOf C6data, [], 0, [], 6, 30, 3, ⟨0, 0, 800, 600⟩⟩

/-- A draw call that would succeed but sits after the failing one. -/
def C8later : DrawParams :=
  ⟨displayRectOf C6data, [], 0, [], 9, 30, USIZE_MAX, ⟨0, 0, 800, 600⟩⟩

/-- C9 counterexample draw call: 600 elements, font texture, index offset 600
(no upload prefix). -/
def C9param : DrawParams :=
  ⟨displayRectOf C6data, [], 0, [], 600, 600, USIZE_MAX, ⟨0, 0, 800, 600⟩⟩

/-! Characterization of the consumed iterator: the state machine of
`DrawParamsIterator` processes exactly the flat (list, command) stream. -/

theorem pullFromLists_of_flatten_nil :
    ∀ {ls : List DrawList}, flattenPairs ls = [] → pullFromLists ls = none := by
  intro ls
  induction ls with
  | nil => intro _; rfl
  | cons l ls ih =>
    intro h
    simp only [flattenPairs, List.append_eq_nil] at h
    obtain ⟨h1, h2⟩ := h
    have hc : l.commands = [] := List.map_eq_nil_iff.mp h1
    simp only [pullFromLists, hc]
    exact ih h2

theorem pullFromLists_of_flatten_cons :
    ∀ {ls : List DrawList} {l : DrawList} {c : DrawCmd}
      {str' : List (DrawList × DrawCmd)},
      flattenPairs ls = (l, c) :: str' →
      ∃ cs ls', pullFromLists ls = some (c, cs, l, ls') ∧
        (cs.map fun c' => (l, c')) ++ flattenPairs ls' = str' ∧
        cs.length + 1 + listsMeas ls' ≤ listsMeas ls := by
  intro ls
  induction ls with
  | nil => intro l c str' h; simp [flattenPairs] at h
  | cons l0 ls0 ih =>
    intro l c str' h
    cases hc : l0.commands with
    | nil =>
      simp only [flattenPairs, hc, List.map_nil, List.nil_append] at h
      obtain ⟨cs, ls', hpull, hstr, hmeas⟩ := ih h
      refine ⟨cs, ls', ?_, hstr, ?_⟩
      · simp only [pullFromLists, hc]; exact hpull
      · simp only [listsMeas, List.map_cons, List.sum_cons]
        simp only [listsMeas] at hmeas
        omega
    | cons c0 cs0 =>
      simp only [flattenPairs, hc, List.map_cons, List.cons_append, List.cons.injEq,
        Prod.mk.injEq] at h
      obtain ⟨⟨hl, hcc⟩, hstr⟩ := h
      subst hl; subst hcc
      refine ⟨cs0, ls0, ?_, hstr, ?_⟩
      · simp only [pullFromLists, hc]
      · simp only [listsMeas, List.map_cons, List.sum_cons, hc, List.length_cons]
        omega

theorem nextCmd_of_stream_nil {s : IterState}
    (hwf : s.draw_commands.isSome → s.draw_list.isSome)
    (hstr : streamOf s = []) : nextCmd s = none := by
  obtain ⟨fbw, fbh, off, scale, disp, rest, dl, dc⟩ := s
  cases dc with
  | none => rfl
  | some cs =>
    have hdl : dl.isSome := hwf (by simp)
    cases dl with
    | none => simp at hdl
    | some l =>
      simp only [streamOf, List.append_eq_nil] at hstr
      obtain ⟨h1, h2⟩ := hstr
      have hcs : cs = [] := List.map_eq_nil_iff.mp h1
      subst hcs
      simp only [nextCmd, pullFromLists_of_flatten_nil h2]

theorem nextCmd_of_stream_cons {s : IterState} {l : DrawList} {c : DrawCmd}
    {str' : List (DrawList × DrawCmd)}
    (hwf : s.draw_commands.isSome → s.draw_list.isSome)
    (hstr : streamOf s = (l, c) :: str') :
    ∃ s', nextCmd s = some (c, s') ∧ s'.draw_list = some l ∧ streamOf s' = str' ∧
      s'.clip_off = s.clip_off ∧ s'.clip_scale = s.clip_scale ∧
      s'.fb_width = s.fb_width ∧ s'.fb_height = s.fb_height ∧
      s'.display_rect = s.display_rect ∧ meas s' < meas s := by
  obtain ⟨fbw, fbh, off, scale, disp, rest, dl, dc⟩ := s
  cases dc with
  | none =>
    exfalso
    cases dl <;> simp [streamOf] at hstr
  | some cs =>
    have hdl : dl.isSome := hwf (by simp)
    cases dl with
    | none => simp at hdl
    | some l0 =>
      cases cs with
      | nil =>
        simp only [streamOf, List.map_nil, List.nil_append] at hstr
        obtain ⟨cs', ls', hpull, hstr2, hmeas⟩ := pullFromLists_of_flatten_cons hstr
        refine ⟨⟨fbw, fbh, off, scale, disp, ls', some l, some cs'⟩, ?_, rfl, ?_, rfl,
          rfl, rfl, rfl, rfl, ?_⟩
        · simp only [nextCmd, hpull]
        · simpa only [streamOf] using hstr2
        · simp only [meas, listsMeas] at hmeas ⊢
          omega
      | cons c1 cs1 =>
        simp only [streamOf, List.map_cons, List.cons_append, List.cons.injEq,
          Prod.mk.injEq] at hstr
        obtain ⟨⟨hl, hcc⟩, hstr2⟩ := hstr
        refine ⟨⟨fbw, fbh, off, scale, disp, rest, some l0, some cs1⟩, ?_, ?_, ?_, rfl,
          rfl, rfl, rfl, rfl, ?_⟩
        · simp only [nextCmd, hcc]
        · rw [hl]
        · simpa only [streamOf] using hstr2
        · simp only [meas, List.length_cons]
          omega

theorem runFromF_eq : ∀ (fuel : ℕ) (s : IterState), meas s < fuel →
    (s.draw_commands.isSome → s.draw_list.isSome) →
    runFromF fuel s =
      processStreamP s.clip_off s.clip_scale s.fb_width s.fb_height s.display_rect
        (streamOf s) := by
  intro fuel
  induction fuel with
  | zero => intro s h _; exact absurd h (Nat.not_lt_zero _)
  | succ fuel ih =>
    intro s hf hwf
    cases hstr : streamOf s with
    | nil =>
      simp only [runFromF, nextCmd_of_stream_nil hwf hstr, processStreamP]
    | cons lc str' =>
      obtain ⟨l, c⟩ := lc
      obtain ⟨s', hnext, hdl, hstr', hoff, hscale, hfbw, hfbh, hdisp, hmeas⟩ :=
        nextCmd_of_stream_cons hwf hstr
      have hwf' : s'.draw_commands.isSome → s'.draw_list.isSome := fun _ => by
        simp [hdl]
      have hih := ih s' (by omega) hwf'
      cases c with
      | Elements count cp =>
        simp only [runFromF, hnext, processStreamP]
        by_cases hcull : culledP s.clip_off s.clip_scale s.fb_width s.fb_height cp
        · rw [if_pos hcull, if_pos hcull, hih, hoff, hscale, hfbw, hfbh, hdisp, hstr']
        · rw [if_neg hcull, if_neg hcull, hdl]
          simp only [hih, hoff, hscale, hfbw, hfbh, hdisp, hstr']
      | ResetRenderState =>
        simp only [runFromF, hnext, processStreamP]
      | RawCallback raw =>
        simp only [runFromF, hnext, processStreamP, hdl]

theorem new_wf (data : DrawData) :
    (DrawParamsIterator.new data).draw_commands.isSome →
    (DrawParamsIterator.new data).draw_list.isSome := by
  unfold DrawParamsIterator.new
  split
  · simp
  · split <;> simp

/-- The consumed iterator, closed form: nothing on a degenerate framebuffer,
otherwise the processed flat command stream of the frame. -/
theorem run_eq (data : DrawData) :
    DrawParamsIterator.run data =
      if fbWidth data ≤ 0 ∨ fbHeight data ≤ 0 then ([], [])
      else
        processStreamP data.display_pos data.framebuffer_scale (fbWidth data)
          (fbHeight data) (displayRectOf data) (flattenPairs data.draw_lists) := by
  unfold DrawParamsIterator.run
  rw [runFromF_eq _ _ (Nat.lt_succ_self _) (new_wf data)]
  unfold DrawParamsIterator.new
  split
  · rfl
  · split
    · next heq => simp [streamOf, heq, flattenPairs]
    · next l ls heq => simp [streamOf, heq, flattenPairs]

theorem of_mem_flattenPairs :
    ∀ {ls : List DrawList} {lc : DrawList × DrawCmd},
      lc ∈ flattenPairs ls → lc.1 ∈ ls ∧ lc.2 ∈ lc.1.commands := by
  intro ls
  induction ls with
  | nil => intro lc h; simp [flattenPairs] at h
  | cons l ls ih =>
    intro lc h
    simp only [flattenPairs, List.mem_append, List.mem_map] at h
    rcases h with ⟨c, hc, rfl⟩ | h
    · exact ⟨List.mem_cons_self _ _, by simpa using hc⟩
    · obtain ⟨h1, h2⟩ := ih h
      exact ⟨List.mem_cons_of_mem _ h1, h2⟩

theorem mem_processStreamP {off scale : ℚ × ℚ} {fbw fbh : ℚ} {disp : Rect} :
    ∀ {str : List (DrawList × DrawCmd)} {p : DrawParams},
      p ∈ (processStreamP off scale fbw fbh disp str).1 →
      ∃ l count cp, (l, DrawCmd.Elements count cp) ∈ str ∧
        ¬ culledP off scale fbw fbh cp ∧
        p = mkElemParams disp scale fbh l count cp := by
  intro str
  induction str with
  | nil => intro p h; simp [processStreamP] at h
  | cons lc rest ih =>
    intro p h
    obtain ⟨l, c⟩ := lc
    cases c with
    | Elements count cp =>
      by_cases hcull : culledP off scale fbw fbh cp
      · rw [processStreamP, if_pos hcull] at h
        obtain ⟨l', count', cp', hmem, hnc, hpe⟩ := ih h
        exact ⟨l', count', cp', List.mem_cons_of_mem _ hmem, hnc, hpe⟩
      · rw [processStreamP, if_neg hcull] at h
        simp only [List.mem_cons] at h
        rcases h with rfl | h
        · exact ⟨l, count, cp, List.mem_cons_self _ _, hcull, rfl⟩
        · obtain ⟨l', count', cp', hmem, hnc, hpe⟩ := ih h
          exact ⟨l', count', cp', List.mem_cons_of_mem _ hmem, hnc, hpe⟩
    | ResetRenderState => simp [processStreamP] at h
    | RawCallback raw => simp [processStreamP] at h

theorem processStreamP_allElements {off scale : ℚ × ℚ} {fbw fbh : ℚ} {disp : Rect} :
    ∀ {str : List (DrawList × DrawCmd)},
      (∀ lc ∈ str, DrawCmd.isElements (Prod.snd lc) = true) →
      processStreamP off scale fbw fbh disp str =
        (str.filterMap fun lc =>
          match lc.2 with
          | .Elements count cp =>
            if culledP off scale fbw fbh cp then none
            else some (mkElemParams disp scale fbh lc.1 count cp)
          | _ => none, []) := by
  intro str
  induction str with
  | nil => intro _; rfl
  | cons lc rest ih =>
    intro hall
    obtain ⟨l, c⟩ := lc
    have hel := hall (l, c) (List.mem_cons_self _ _)
    have hrest : ∀ lc ∈ rest, DrawCmd.isElements (Prod.snd lc) = true :=
      fun lc h => hall lc (List.mem_cons_of_mem _ h)
    cases c with
    | Elements count cp =>
      by_cases hcull : culledP off scale fbw fbh cp
      · rw [processStreamP, if_pos hcull, ih hrest, List.filterMap_cons]
        simp [hcull]
      · rw [processStreamP, if_neg hcull, ih hrest, List.filterMap_cons]
        simp [hcull]
    | ResetRenderState => simp [DrawCmd.isElements] at hel
    | RawCallback raw => simp [DrawCmd.isElements] at hel

/-! Claims about the draw-command iterator (C1–C4). -/

/-- C1 (amended): in a frame with positive framebuffer dimensions all of whose
draw commands are `Elements` commands, a command is emitted iff its clip rect
transformed by `(raw - offset) * scale` does not satisfy the cull condition
(left ≥ fb width, or top ≥ fb height, or right < 0, or bottom < 0); culled
commands are skipped.  (The unamended claim fails when a `ResetRenderState` or
`RawCallback` command precedes an in-bounds `Elements` command, because the
iterator's `next` then returns `None` and the consuming loop stops: see the
counterexample.) -/
theorem C1_cull_iff_skipped (data : DrawData)
    (hw : 0 < fbWidth data) (hh : 0 < fbHeight data)
    (hall : ∀ l ∈ data.draw_lists, ∀ c ∈ l.commands, DrawCmd.isElements c = true) :
    emittedParams data =
      (flattenPairs data.draw_lists).filterMap fun lc =>
        match lc.2 with
        | .Elements count cp =>
          if culledP data.display_pos data.framebuffer_scale (fbWidth data)
              (fbHeight data) cp then none
          else some (mkElemParams (displayRectOf data) data.framebuffer_scale
            (fbHeight data) lc.1 count cp)
        | _ => none := by
  have hstream : ∀ lc ∈ flattenPairs data.draw_lists,
      DrawCmd.isElements (Prod.snd lc) = true := by
    intro lc hlc
    obtain ⟨h1, h2⟩ := of_mem_flattenPairs hlc
    exact hall _ h1 _ h2
  unfold emittedParams
  rw [run_eq, if_neg (by push_neg; exact ⟨hw, hh⟩), processStreamP_allElements hstream]

unseal Rat.mul Rat.add Rat.sub in
/-- C1 witness: framebuffer 800×600, clip rect `[900, 0, 950, 50]` is culled
and clip rect `[0, 0, 800, 600]` is kept. -/
theorem C1_cull_iff_skipped_witness :
    emittedParams C1wData =
      [mkElemParams (displayRectOf C1wData) (1, 1) 600 C1wList 60 cpKept] ∧
    culledP (0, 0) (1, 1) (fbWidth C1wData) (fbHeight C1wData) cpOut ∧
    ¬ culledP (0, 0) (1, 1) (fbWidth C1wData) (fbHeight C1wData) cpKept :=
  ⟨(C1_cull_iff_skipped C1wData (by decide) (by decide) (by decide)).trans (by decide),
   by decide, by decide⟩

unseal Rat.mul Rat.add Rat.sub in
/-- C1 counterexample: with positive framebuffer dimensions 800×600, the
`Elements` command with the in-bounds clip rect `[0, 0, 800, 600]` does not
satisfy the cull condition, yet no `DrawParams` is emitted for it (it follows
a `ResetRenderState` command, and the iterator stops there), refuting
"skipped if and only if the cull condition holds". -/
theorem C1_cull_iff_skipped_counterexample :
    0 < fbWidth C1cexData ∧ 0 < fbHeight C1cexData ∧
    (DrawCmd.Elements 3 cpKept) ∈ C1cexList.commands ∧
    ¬ culledP (0, 0) (1, 1) (fbWidth C1cexData) (fbHeight C1cexData) cpKept ∧
    emittedParams C1cexData = [] := by
  refine ⟨by decide, by decide, by decide, by decide, ?_⟩
  unfold emittedParams
  rw [run_eq]
  decide

/-- C2: whenever the framebuffer width or height (display size times
framebuffer scale) is non-positive, the iterator yields no Normalized Draw
Params at all, however many draw lists and commands the frame holds. -/
theorem C2_degenerate_empty (data : DrawData)
    (h : fbWidth data ≤ 0 ∨ fbHeight data ≤ 0) : emittedParams data = [] := by
  unfold emittedParams
  rw [run_eq, if_pos h]

unseal Rat.mul Rat.add Rat.sub in
/-- C2 witness: a frame with zero display width but a non-empty command
stream yields nothing. -/
theorem C2_degenerate_empty_witness :
    (fbWidth C2wData ≤ 0 ∨ fbHeight C2wData ≤ 0) ∧ emittedParams C2wData = [] :=
  ⟨by decide, C2_degenerate_empty C2wData (by decide)⟩

/-- C3 (amended): every emitted Normalized Draw Params originates from some
`Elements` command of the frame that passes the cull test, and its scissor
rect is built from the raw clip rect `[x, y, z, w]` and the framebuffer scale
`(sx, sy)` as `left = x·sx`, `top = fb_height − w·sy`, `right = (z−x)·sx`,
`bottom = (w−y)·sy` — the display offset is ignored and the `right`/`bottom`
fields hold the scaled width/height, so the scissor is not the
`(raw − offset) · scale` image of the clip rect (that transform is applied
only in the cull test), and offset `(0,0)` / scale `(1,1)` is not the
identity on the scissor. -/
theorem C3_scissor_formula (data : DrawData) (p : DrawParams)
    (hp : p ∈ emittedParams data) :
    ∃ l count cp, l ∈ data.draw_lists ∧ DrawCmd.Elements count cp ∈ l.commands ∧
      ¬ culledP data.display_pos data.framebuffer_scale (fbWidth data) (fbHeight data) cp ∧
      p.scissor =
        { left := cp.clip_rect.x * data.framebuffer_scale.1
          top := fbHeight data - cp.clip_rect.w * data.framebuffer_scale.2
          right := (cp.clip_rect.z - cp.clip_rect.x) * data.framebuffer_scale.1
          bottom := (cp.clip_rect.w - cp.clip_rect.y) * data.framebuffer_scale.2 } := by
  unfold emittedParams at hp
  rw [run_eq] at hp
  by_cases hdeg : fbWidth data ≤ 0 ∨ fbHeight data ≤ 0
  · rw [if_pos hdeg] at hp
    simp at hp
  · rw [if_neg hdeg] at hp
    obtain ⟨l, count, cp, hmem, hnc, hpe⟩ := mem_processStreamP hp
    obtain ⟨h1, h2⟩ := of_mem_flattenPairs hmem
    exact ⟨l, count, cp, h1, h2, hnc, by rw [hpe]; rfl⟩

unseal Rat.mul Rat.add Rat.sub in
/-- C3 witness: instantiation of the amended scissor formula on a concrete
frame (clip rect `[10, 20, 100, 200]`, framebuffer 800×600, offset `(0,0)`,
scale `(1,1)`). -/
theorem C3_scissor_formula_witness :
    C3param ∈ emittedParams C3data ∧
    ∃ l count cp, l ∈ C3data.draw_lists ∧ DrawCmd.Elements count cp ∈ l.commands ∧
      ¬ culledP C3data.display_pos C3data.framebuffer_scale (fbWidth C3data)
          (fbHeight C3data) cp ∧
      C3param.scissor =
        { left := cp.clip_rect.x * C3data.framebuffer_scale.1
          top := fbHeight C3data - cp.clip_rect.w * C3data.framebuffer_scale.2
          right := (cp.clip_rect.z - cp.clip_rect.x) * C3data.framebuffer_scale.1
          bottom := (cp.clip_rect.w - cp.clip_rect.y) * C3data.framebuffer_scale.2 } := by
  have hmem : C3param ∈ emittedParams C3data := by
    unfold emittedParams
    rw [run_eq]
    decide
  exact ⟨hmem, C3_scissor_formula C3data C3param hmem⟩

unseal Rat.mul Rat.add Rat.sub in
/-- C3 counterexample: with offset `(0,0)` and scale `(1,1)` (framebuffer
800×600) the emitted scissor for clip rect `[10, 20, 100, 200]` is
`⟨10, 400, 90, 180⟩`, while the claimed per-axis transform `(raw − offset) ·
scale` — the identity here — gives `⟨10, 20, 100, 200⟩`: the scissor is not
the transformed clip rect, and the round trip is not the identity. -/
theorem C3_scissor_formula_counterexample :
    (emittedParams C3data).map DrawParams.scissor = [⟨10, 400, 90, 180⟩] ∧
    spec_transform_clip_rect C3cp.clip_rect (0, 0) (1, 1) = ⟨10, 20, 100, 200⟩ ∧
    (⟨10, 400, 90, 180⟩ : Rect) ≠ ⟨10, 20, 100, 200⟩ := by
  refine ⟨?_, by decide, by decide⟩
  unfold emittedParams
  rw [run_eq]
  decide

unseal Rat.mul Rat.add Rat.sub in
/-- C4: evaluation of the iterator at the failing inputs.  The spec (and the
source's own nested-loop comment) intend `ResetRenderState` / `RawCallback`
to be skipped with iteration continuing, but `next` returns `None` for them,
so the consuming `for` loop stops: the in-bounds `Elements` command that
follows is never emitted.  The diagnostic is recorded, and for `RawCallback`
the callback is invoked with the list's raw handle and the payload. -/
theorem C4_stop_at_unsupported :
    DrawParamsIterator.run C4dataA = ([], [.warnResetRenderState]) ∧
    DrawParamsIterator.run C4dataB =
      ([], [.warnRawCallback, .invokeRawCallback C4listB 42]) ∧
    0 < fbWidth C4dataA ∧ 0 < fbHeight C4dataA ∧
    ¬ culledP (0, 0) (1, 1) (fbWidth C4dataA) (fbHeight C4dataA) cpKept := by
  refine ⟨?_, ?_, by decide, by decide, by decide⟩
  · rw [run_eq]; decide
  · rw [run_eq]; decide

/-! Claims about the renderers (C5–C10). -/

/-- C5: resolving the sentinel texture id (`usize::MAX`) returns the font
atlas handle without consulting the user-texture registry, whatever the
registry holds; resolving any other id that is absent from the registry fails
with the typed bad-texture error (fna3d) resp. `None` (glow, rokol; the glow
caller turns it into a "Bad texture id" error, the rokol caller likewise). -/
theorem C5_sentinel_resolution :
    (∀ (textures : List (ℕ × Fna3d.Tex)) (font : Fna3d.Tex),
      Fna3d.lookupDrawTexture textures font USIZE_MAX = .ok font) ∧
    (∀ (textures : List (ℕ × Fna3d.Tex)) (font : Fna3d.Tex) (id : ℕ),
      id ≠ USIZE_MAX → texturesGet textures id = none →
      Fna3d.lookupDrawTexture textures font id = .error (.BadTexture id)) ∧
    (∀ st : Glow.ImGuiGlow,
      st.lookup_texture Glow.FONT_TEXTUER_ID = some st.font_texture) ∧
    (∀ (st : Glow.ImGuiGlow) (id : ℕ), id ≠ Glow.FONT_TEXTUER_ID →
      texturesGet st.textures id = none → st.lookup_texture id = none) ∧
    (∀ st : Rokol.ImGuiRokolGfx,
      st.lookup_texture Rokol.FONT_TEXTUER_ID = some st.font_texture) ∧
    (∀ (st : Rokol.ImGuiRokolGfx) (id : ℕ), id ≠ Rokol.FONT_TEXTUER_ID →
      texturesGet st.textures id = none → st.lookup_texture id = none) := by
  refine ⟨?_, ?_, ?_, ?_, ?_, ?_⟩
  · intro textures font
    simp [Fna3d.lookupDrawTexture]
  · intro textures font id h1 h2
    simp [Fna3d.lookupDrawTexture, h1, h2]
  · intro st
    simp [Glow.ImGuiGlow.lookup_texture]
  · intro st id h1 h2
    simp [Glow.ImGuiGlow.lookup_texture, h1, h2]
  · intro st
    simp [Rokol.ImGuiRokolGfx.lookup_texture]
  · intro st id h1 h2
    simp [Rokol.ImGuiRokolGfx.lookup_texture, h1, h2]

/-- C5 witness: a registry that even contains a binding for the sentinel key
(and one for id 5) — the sentinel still resolves to the font atlas handle 3,
and the unregistered id 4 fails. -/
theorem C5_sentinel_resolution_witness :
    Fna3d.lookupDrawTexture [(USIZE_MAX, 99), (5, 7)] 3 USIZE_MAX = .ok 3 ∧
    Fna3d.lookupDrawTexture [(USIZE_MAX, 99), (5, 7)] 3 4 = .error (.BadTexture 4) ∧
    Glow.ImGuiGlow.lookup_texture ⟨[(USIZE_MAX, 99), (5, 7)], 3⟩ Glow.FONT_TEXTUER_ID =
      some 3 ∧
    Glow.ImGuiGlow.lookup_texture ⟨[(USIZE_MAX, 99), (5, 7)], 3⟩ 4 = none ∧
    Rokol.ImGuiRokolGfx.lookup_texture ⟨[(USIZE_MAX, 99), (5, 7)], 3⟩ Rokol.FONT_TEXTUER_ID =
      some 3 ∧
    Rokol.ImGuiRokolGfx.lookup_texture ⟨[(USIZE_MAX, 99), (5, 7)], 3⟩ 4 = none :=
  ⟨C5_sentinel_resolution.1 _ _,
   C5_sentinel_resolution.2.1 _ _ 4 (by decide) (by decide),
   C5_sentinel_resolution.2.2.1 _,
   C5_sentinel_resolution.2.2.2.1 _ 4 (by decide) (by decide),
   C5_sentinel_resolution.2.2.2.2.1 _,
   C5_sentinel_resolution.2.2.2.2.2 _ 4 (by decide) (by decide)⟩

theorem set_buffers_countP_upload (b : Fna3d.Batch) (v i : ℕ) :
    ((b.set_buffers v i).2.countP Fna3d.GpuOp.isBufferUpload = 2) ∧
    ((b.set_buffers v i).2.countP Fna3d.GpuOp.isSetProjection = 0) := by
  unfold Fna3d.Batch.set_buffers Fna3d.GpuVertexBuffer.upload_vertices
    Fna3d.GpuIndexBuffer.upload_indices
  dsimp only
  constructor <;>
    · split_ifs <;>
        simp [List.countP_append, List.countP_cons, Fna3d.GpuOp.isBufferUpload,
          Fna3d.GpuOp.isSetProjection]

unseal Rat.mul Rat.add Rat.sub in
set_option maxRecDepth 100000 in
/-- C6: `ImGuiFna3d::draw` uploads the vertex and index buffers (one
`set_*_buffer_data` each) and sets the projection uniform exactly when the
command's index offset is zero, and performs no upload on any other command;
on the two-command scenario (index offsets 0 and 600, shared font texture)
the full render trace uploads once, before both indexed draws, and never
re-uploads before the second command. -/
theorem C6_upload_iff_zero_idx_offset :
    (∀ (st : Fna3d.ImGuiFna3d) (p : DrawParams),
      ((Fna3d.ImGuiFna3d.draw st p).2.1.countP Fna3d.GpuOp.isBufferUpload =
        if p.idx_offset = 0 then 2 else 0) ∧
      ((Fna3d.ImGuiFna3d.draw st p).2.1.countP Fna3d.GpuOp.isSetProjection =
        if p.idx_offset = 0 then 1 else 0)) ∧
    (Fna3d.ImGuiFna3d.render C6st C6data).2.1 =
      [.setBlendState,
       .setVertexBufferData (Fna3d.VERT_SIZE * 8), .setIndexBufferData (Fna3d.INDEX_SIZE * 1200),
       .setProjection 0 800 600 0,
       .setScissor 0 0 800 600, .verifySampler 7, .applyVertexBufferBindings 0,
       .drawIndexed 0 0 400 200,
       .setScissor 0 0 800 600, .verifySampler 7, .applyVertexBufferBindings 0,
       .drawIndexed 0 600 400 200] := by
  constructor
  · intro st p
    obtain ⟨h1, h2⟩ := set_buffers_countP_upload st.batch p.vtx_buffer.length
      p.idx_buffer.length
    unfold Fna3d.ImGuiFna3d.draw
    dsimp only
    by_cases h : p.idx_offset = 0 <;>
      · simp only [h, if_true, if_false, ite_true, ite_false]
        split <;>
          simp [List.countP_append, List.countP_cons, Fna3d.GpuOp.isBufferUpload,
            Fna3d.GpuOp.isSetProjection, h1, h2]
  · decide

/-- C7 (amended): each upload reallocates (dispose + alloc) exactly when the
incoming byte length *plus a margin of `size_of::<T>()` elements* exceeds the
current capacity — so an upload whose data alone fits the capacity can still
reallocate; the new capacity is exactly the data plus that margin (20 extra
vertices = 400 bytes for the vertex buffer, 2 extra indices = 4 bytes for the
index buffer, not a single extra element); in every case the full slice is
written from offset zero as the final operation. -/
theorem C7_buffer_growth :
    (∀ (b : Fna3d.GpuVertexBuffer) (n : ℕ),
      ((b.upload_vertices n).2.countP Fna3d.GpuOp.isAllocVertex =
        if b.capacity_in_bytes <
            Fna3d.VERT_SIZE * n + Fna3d.VERT_SIZE * Fna3d.sizeOfDrawVert
        then 1 else 0) ∧
      ((b.upload_vertices n).1.capacity_in_bytes =
        if b.capacity_in_bytes <
            Fna3d.VERT_SIZE * n + Fna3d.VERT_SIZE * Fna3d.sizeOfDrawVert
        then Fna3d.VERT_SIZE * n + Fna3d.VERT_SIZE * Fna3d.sizeOfDrawVert
        else b.capacity_in_bytes) ∧
      ((b.upload_vertices n).2.getLast? =
        some (.setVertexBufferData (Fna3d.VERT_SIZE * n)))) ∧
    (∀ (b : Fna3d.GpuIndexBuffer) (n : ℕ),
      ((b.upload_indices n).2.countP Fna3d.GpuOp.isAllocIndex =
        if b.capacity_in_bytes <
            Fna3d.INDEX_SIZE * n + Fna3d.INDEX_SIZE * Fna3d.sizeOfDrawIdx
        then 1 else 0) ∧
      ((b.upload_indices n).1.capacity_in_bytes =
        if b.capacity_in_bytes <
            Fna3d.INDEX_SIZE * n + Fna3d.INDEX_SIZE * Fna3d.sizeOfDrawIdx
        then Fna3d.INDEX_SIZE * n + Fna3d.INDEX_SIZE * Fna3d.sizeOfDrawIdx
        else b.capacity_in_bytes) ∧
      ((b.upload_indices n).2.getLast? =
        some (.setIndexBufferData (Fna3d.INDEX_SIZE * n)))) := by
  constructor
  · intro b n
    unfold Fna3d.GpuVertexBuffer.upload_vertices
    dsimp only
    rw [Nat.mul_add]
    split_ifs with h <;>
      exact ⟨by simp [List.countP_cons, Fna3d.GpuOp.isAllocVertex], rfl, rfl⟩
  · intro b n
    unfold Fna3d.GpuIndexBuffer.upload_indices
    dsimp only
    rw [Nat.mul_add]
    split_ifs with h <;>
      exact ⟨by simp [List.countP_cons, Fna3d.GpuOp.isAllocIndex], rfl, rfl⟩

/-- C7 counterexample: the freshly created vertex buffer has capacity 655360
bytes; uploading 32760 vertices (655200 bytes, which is *not* larger than the
capacity) still triggers a reallocation — refuting "data smaller than or equal
to the current capacity ⇒ zero reallocations" — and the new capacity 655600
exceeds the data by 400 bytes, more than the single extra element (20 bytes)
the claim allows. -/
theorem C7_buffer_growth_counterexample :
    (Fna3d.GpuVertexBuffer.new (4 * Fna3d.N_QUADS)).1 =
      ({ capacity_in_bytes := 655360 } : Fna3d.GpuVertexBuffer) ∧
    Fna3d.VERT_SIZE * 32760 ≤ 655360 ∧
    ((({ capacity_in_bytes := 655360 } : Fna3d.GpuVertexBuffer).upload_vertices
        32760).2.countP Fna3d.GpuOp.isAllocVertex = 1) ∧
    ((({ capacity_in_bytes := 655360 } : Fna3d.GpuVertexBuffer).upload_vertices
        32760).1.capacity_in_bytes = 655600) ∧
    (655600 : ℕ) ≠ Fna3d.VERT_SIZE * 32760 + Fna3d.VERT_SIZE := by
  decide

theorem draw_registry_eq (st : Fna3d.ImGuiFna3d) (p : DrawParams) :
    (Fna3d.ImGuiFna3d.draw st p).1.textures = st.textures ∧
    (Fna3d.ImGuiFna3d.draw st p).1.font_texture = st.font_texture := by
  unfold Fna3d.ImGuiFna3d.draw
  dsimp only
  constructor <;>
    · split_ifs <;> (split <;> rfl)

theorem draw_err_eq (st : Fna3d.ImGuiFna3d) (p : DrawParams) :
    (Fna3d.ImGuiFna3d.draw st p).2.2 =
      match Fna3d.lookupDrawTexture st.textures st.font_texture p.tex_id with
      | .ok _ => none
      | .error e => some e := by
  unfold Fna3d.ImGuiFna3d.draw
  split <;> split <;> simp_all

theorem lookup_error_of_not_ok {textures : List (ℕ × Fna3d.Tex)} {font : Fna3d.Tex}
    {id : ℕ}
    (h : Fna3d.exOk (Fna3d.lookupDrawTexture textures font id) = false) :
    Fna3d.lookupDrawTexture textures font id = .error (.BadTexture id) := by
  unfold Fna3d.lookupDrawTexture at h ⊢
  split at h
  next hid => simp [Fna3d.exOk] at h
  next hid =>
    rw [if_neg hid]
    cases heq : texturesGet textures id with
    | some t => rw [heq] at h; simp [Fna3d.exOk] at h
    | none => simp [heq]

/-- C8: if, after some successfully drawn commands, a command's texture id
fails to resolve, the render loop stops — its result does not depend on the
commands that follow the failing one — and the typed `BadTexture` error is
the loop's result, which `ImGuiFna3d::render` propagates to its caller via
`?`. -/
theorem C8_abort_on_unknown_texture :
    (∀ (st : Fna3d.ImGuiFna3d) (ps : List DrawParams) (p : DrawParams)
      (rest : List DrawParams),
      (∀ q ∈ ps, Fna3d.exOk
        (Fna3d.lookupDrawTexture st.textures st.font_texture q.tex_id) = true) →
      Fna3d.exOk
        (Fna3d.lookupDrawTexture st.textures st.font_texture p.tex_id) = false →
      Fna3d.renderLoop st (ps ++ p :: rest) = Fna3d.renderLoop st (ps ++ [p]) ∧
      (Fna3d.renderLoop st (ps ++ [p])).2.2 = some (.BadTexture p.tex_id)) ∧
    (∀ (st : Fna3d.ImGuiFna3d) (data : DrawData),
      (Fna3d.ImGuiFna3d.render st data).2.2 =
        (Fna3d.renderLoop st (emittedParams data)).2.2) := by
  refine ⟨?_, fun st data => rfl⟩
  intro st ps p rest hok hbad
  induction ps generalizing st with
  | nil =>
    have hberr : (Fna3d.ImGuiFna3d.draw st p).2.2 = some (.BadTexture p.tex_id) := by
      rw [draw_err_eq, lookup_error_of_not_ok hbad]
    constructor
    · simp only [List.nil_append, Fna3d.renderLoop, hberr]
    · simp only [List.nil_append, Fna3d.renderLoop, hberr]
  | cons q ps ih =>
    have hqok := hok q (List.mem_cons_self _ _)
    have hq : (Fna3d.ImGuiFna3d.draw st q).2.2 = none := by
      rw [draw_err_eq]
      cases hl : Fna3d.lookupDrawTexture st.textures st.font_texture q.tex_id with
      | ok t => rfl
      | error e => rw [hl] at hqok; simp [Fna3d.exOk] at hqok
    obtain ⟨ht, hf⟩ := draw_registry_eq st q
    have hok' : ∀ r ∈ ps,
        Fna3d.exOk (Fna3d.lookupDrawTexture (Fna3d.ImGuiFna3d.draw st q).1.textures
          (Fna3d.ImGuiFna3d.draw st q).1.font_texture r.tex_id) = true := by
      rw [ht, hf]
      exact fun r hr => hok r (List.mem_cons_of_mem _ hr)
    have hbad' : Fna3d.exOk (Fna3d.lookupDrawTexture
        (Fna3d.ImGuiFna3d.draw st q).1.textures
        (Fna3d.ImGuiFna3d.draw st q).1.font_texture p.tex_id) = false := by
      rw [ht, hf]; exact hbad
    obtain ⟨ih1, ih2⟩ := ih (Fna3d.ImGuiFna3d.draw st q).1 hok' hbad'
    constructor
    · simp only [List.cons_append, Fna3d.renderLoop, hq, List.append_eq, ih1]
    · simp only [List.cons_append, Fna3d.renderLoop, hq, List.append_eq, ih2]

/-- C8 witness: with registry `{0 ↦ 5}` and font handle 7, a successful draw
(texture 0) followed by a draw with unregistered texture 3 aborts the loop:
the trailing command is never processed and the typed error is returned. -/
theorem C8_abort_on_unknown_texture_witness :
    Fna3d.renderLoop C8st ([C8good] ++ C8bad :: [C8later]) =
      Fna3d.renderLoop C8st ([C8good] ++ [C8bad]) ∧
    (Fna3d.renderLoop C8st ([C8good] ++ [C8bad])).2.2 =
      some (.BadTexture C8bad.tex_id) :=
  C8_abort_on_unknown_texture.1 C8st [C8good] C8bad [C8later] (by decide) (by decide)

theorem trianglesDrawn_set_buffers (b : Fna3d.Batch) (v i : ℕ) :
    Fna3d.trianglesDrawn (b.set_buffers v i).2 = [] := by
  unfold Fna3d.Batch.set_buffers Fna3d.GpuVertexBuffer.upload_vertices
    Fna3d.GpuIndexBuffer.upload_indices Fna3d.trianglesDrawn
  dsimp only
  split_ifs <;> simp [List.filterMap_append]

/-- C9 (amended): the `n_elems` field of every emitted Normalized Draw Params
is the raw `count` field of its `Elements` command (the number of indices, in
imgui's convention), and for every draw call whose texture resolves, the
FNA3D orchestrator issues one indexed draw whose primitive count is
`n_elems / 3` triangles (with `n_elems * 2 / 3` passed as the vertex count) —
not `n_elems` triangles. -/
theorem C9_elem_count_and_triangles :
    (∀ (data : DrawData) (p : DrawParams), p ∈ emittedParams data →
      ∃ l count cp, l ∈ data.draw_lists ∧ DrawCmd.Elements count cp ∈ l.commands ∧
        p.n_elems = count) ∧
    (∀ (st : Fna3d.ImGuiFna3d) (p : DrawParams),
      Fna3d.trianglesDrawn (Fna3d.ImGuiFna3d.draw st p).2.1 =
        if Fna3d.exOk (Fna3d.lookupDrawTexture st.textures st.font_texture p.tex_id)
        then [p.n_elems / 3] else []) := by
  constructor
  · intro data p hp
    unfold emittedParams at hp
    rw [run_eq] at hp
    by_cases hdeg : fbWidth data ≤ 0 ∨ fbHeight data ≤ 0
    · rw [if_pos hdeg] at hp
      simp at hp
    · rw [if_neg hdeg] at hp
      obtain ⟨l, count, cp, hmem, _, hpe⟩ := mem_processStreamP hp
      obtain ⟨h1, h2⟩ := of_mem_flattenPairs hmem
      exact ⟨l, count, cp, h1, h2, by rw [hpe]; rfl⟩
  · intro st p
    have hsb := trianglesDrawn_set_buffers st.batch p.vtx_buffer.length
      p.idx_buffer.length
    unfold Fna3d.trianglesDrawn at hsb ⊢
    unfold Fna3d.ImGuiFna3d.draw
    dsimp only
    by_cases h : p.idx_offset = 0 <;>
      · simp only [h, if_true, if_false, ite_true, ite_false]
        cases hl : Fna3d.lookupDrawTexture st.textures st.font_texture p.tex_id <;>
          simp [Fna3d.exOk, List.filterMap_append, hl, hsb]

unseal Rat.mul Rat.add Rat.sub in
set_option maxRecDepth 10000 in
/-- C9 counterexample: for an emitted command with element count 600, the
FNA3D orchestrator issues a draw of 200 triangles, not 600. -/
theorem C9_elem_count_and_triangles_counterexample :
    Fna3d.trianglesDrawn (Fna3d.ImGuiFna3d.draw C6st C9param).2.1 = [200] ∧
    C9param.n_elems = 600 ∧ (200 : ℕ) ≠ 600 := by
  refine ⟨by decide, by decide, by decide⟩

unseal Rat.mul Rat.add Rat.sub in
/-- C9 witness: instantiation of the amended claim — the single command of
`C3data` carries its raw count 6 as `n_elems`, and the orchestrator draw for
`C9param` issues `600 / 3` triangles since its font texture resolves. -/
theorem C9_elem_count_and_triangles_witness :
    (∃ l count cp, l ∈ C3data.draw_lists ∧ DrawCmd.Elements count cp ∈ l.commands ∧
      C3param.n_elems = count) ∧
    Fna3d.trianglesDrawn (Fna3d.ImGuiFna3d.draw C6st C9param).2.1 =
      (if Fna3d.exOk (Fna3d.lookupDrawTexture C6st.textures C6st.font_texture
          C9param.tex_id) then [C9param.n_elems / 3] else []) :=
  ⟨C9_elem_count_and_triangles.1 C3data C3param
    (by unfold emittedParams; rw [run_eq]; decide),
   C9_elem_count_and_triangles.2 C6st C9param⟩

/-- C10 (amended): the glow geometry buffers have fixed capacities set at
creation and are never reallocated; but because `Resources::new` passes byte
counts where `Buffer::new` expects element counts, the capacities are
`size_of::<T>()`-times larger than "4·2048 vertices / 6·2048 indices worth of
bytes": 3276800 bytes (= 4·2048·20 vertices) and 49152 bytes (= 6·2048·2
indices).  Each append that fits advances the write offset by exactly the
appended byte length, writing at the previous offset; an append that would
exceed the capacity fails the assertion instead of growing the buffer, and no
append ever changes the capacity. -/
theorem C10_glow_fixed_buffers :
    (∀ (b : Glow.Buffer) (sizeOfT dataLen : ℕ),
      match Glow.Buffer.append b sizeOfT dataLen with
      | some r =>
        r.1.capacity_bytes = b.capacity_bytes ∧
        r.1.len_bytes = b.len_bytes + sizeOfT * dataLen ∧
        r.2.1 = b.len_bytes ∧ r.2.2 = sizeOfT * dataLen ∧
        b.len_bytes + sizeOfT * dataLen ≤ b.capacity_bytes
      | none => b.capacity_bytes < b.len_bytes + sizeOfT * dataLen) ∧
    Glow.Resources.new =
      some (⟨0, 3276800⟩, ⟨0, 49152⟩) := by
  constructor
  · intro b sizeOfT dataLen
    unfold Glow.Buffer.append
    dsimp only
    split_ifs with h
    · exact ⟨rfl, rfl, rfl, rfl, h⟩
    · omega
  · decide

/-- C10 counterexample: the capacities fixed at creation are 3276800 and
49152 bytes, not `4 * 2048` vertices (163840 bytes) resp. `6 * 2048` indices
(24576 bytes) worth of bytes as claimed. -/
theorem C10_glow_fixed_buffers_counterexample :
    Glow.Resources.new = some (⟨0, 3276800⟩, ⟨0, 49152⟩) ∧
    (3276800 : ℕ) ≠ 4 * 2048 * Glow.sizeOfDrawVert ∧
    (49152 : ℕ) ≠ 6 * 2048 * Glow.sizeOfDrawIdx := by
  decide

end ImguiBackends
